import Mathlib

/-!
Verification of the gameplay-mode controller of `game/src/sandbox/gameplay/mod.rs`:
a shallow embedding of the mode-dispatch data model, the scenario-resolution
pipeline of `GameplayRunner::initialize`, the baseline-comparison formatters
(`cmp_duration_shorter`, `cmp_count_fewer`, `cmp_count_more`) and the overlay
toggle synchronizer (`manage_overlays`), with theorems checking the spec's
statements about them.

Collaborators that live outside this file's source (the `geom`, `sim`,
`ezgui` and `abstutil` crates) are modelled from the spec's description of the
interfaces this core consumes; each such definition is marked
"Modelled from the spec". Rust `&mut` parameters become explicit state
passing; fallible loads become `Option`; a `panic!`/`unwrap` abort is `none`.
-/

namespace Gameplay

/-- Modelled from the spec: the two affect colors the comparators use
(ezgui's `Color::GREEN` and `Color::RED`). -/
inductive Color where
  | GREEN
  | RED
deriving DecidableEq, Repr

/-- Modelled from the spec: ezgui's `TextSpan`, a piece of text with an
optional foreground color. -/
structure TextSpan where
  text : String
  color : Option Color
deriving DecidableEq, Repr

/-- Modelled from the spec: ezgui's `Line`, an uncolored text span. -/
def Line (s : String) : TextSpan := ⟨s, none⟩

/-- Modelled from the spec: ezgui's `TextSpan::fg`, coloring a span. -/
def TextSpan.fg (t : TextSpan) (c : Color) : TextSpan := { t with color := some c }

/-- Modelled from the spec: geom's `Duration`, simulated time in seconds,
embedded as an exact rational rather than a floating-point number. -/
abbrev Duration := ℚ

/-- Modelled from the spec: the fixed epsilon tolerance (0.1 seconds) of the
duration equality check. -/
def durationEpsilon : ℚ := 1 / 10

/-- Modelled from the spec: geom's `Duration::epsilon_eq`, equality within
the fixed epsilon tolerance rather than bitwise equality. -/
def Duration.epsilon_eq (a b : Duration) : Bool :=
  if a > b then decide (a - b < durationEpsilon)
  else if b > a then decide (b - a < durationEpsilon)
  else true

/-- Modelled from the spec: geom's `Duration::minimal_tostring`, the display
rendering of a duration; its exact text does not matter to any claim. -/
def Duration.minimal_tostring (d : Duration) : String :=
  toString d.num ++ "/" ++ toString d.den ++ "s"

/-- Modelled from the spec: abstutil's `prettyprint_usize`, the decimal
rendering of a count with thousands separators. -/
def prettyprint_usize (x : Nat) : String :=
  let s := (toString x).data
  let n := s.length
  String.mk ((s.enum.map fun p =>
    if n - 1 - p.1 > 0 && (n - 1 - p.1) % 3 == 0 then [p.2, ','] else [p.2]).flatten)

/-- Embeds `cmp_duration_shorter` (shorter is better); the source's
`unreachable!()` fallback branch is embedded as `none`. -/
def cmp_duration_shorter (now baseline : Duration) : Option (List TextSpan) :=
  if Duration.epsilon_eq now baseline then
    some [Line " (same as baseline)"]
  else if now < baseline then
    some [Line " (",
          TextSpan.fg (Line (Duration.minimal_tostring (baseline - now))) Color.GREEN,
          Line " faster)"]
  else if now > baseline then
    some [Line " (",
          TextSpan.fg (Line (Duration.minimal_tostring (now - baseline))) Color.RED,
          Line " slower)"]
  else
    none

/-- Embeds `cmp_count_fewer` (fewer is better). -/
def cmp_count_fewer (now baseline : Nat) : TextSpan :=
  if now < baseline then
    TextSpan.fg (Line (prettyprint_usize (baseline - now) ++ " fewer")) Color.GREEN
  else if now > baseline then
    TextSpan.fg (Line (prettyprint_usize (now - baseline) ++ " more")) Color.RED
  else
    Line "same as baseline"

/-- Embeds `cmp_count_more` (more is better). -/
def cmp_count_more (now baseline : Nat) : TextSpan :=
  if now < baseline then
    TextSpan.fg (Line (prettyprint_usize (baseline - now) ++ " fewer")) Color.RED
  else if now > baseline then
    TextSpan.fg (Line (prettyprint_usize (now - baseline) ++ " more")) Color.GREEN
  else
    Line "same as baseline"

/-- Modelled from the spec: the overlay state, with the explicit `Inactive`
sentinel; every other data layer variant is abstracted as `Other` with a tag. -/
inductive Overlays where
  | Inactive
  | Other (tag : Nat)
deriving DecidableEq, Repr

/-- Modelled from the spec: ezgui's `ModalMenu` as this core consumes it — the
currently displayed action label of the show/hide pair, the action the user
triggered this frame (already consumed by the menu's own per-frame event
handling, per the call-order precondition), and the standalone-layout flag. -/
structure ModalMenu where
  action : String
  clicked : Option String
  standalone_layout : Bool
deriving DecidableEq, Repr

/-- Modelled from the spec: `maybe_change_action(a, b)` — if the displayed
action is `a`, change it to `b`, otherwise leave the menu alone. -/
def ModalMenu.maybe_change_action (m : ModalMenu) (a b : String) : ModalMenu :=
  if m.action = a then { m with action := b } else m

/-- Modelled from the spec: `swap_action(a, b)` — true iff the user triggered
the displayed action `a` this frame; on success the displayed action becomes
`b` and the interaction is consumed. -/
def ModalMenu.swap_action (m : ModalMenu) (a b : String) : ModalMenu × Bool :=
  if m.clicked = some a ∧ m.action = a then
    ({ m with action := b, clicked := none }, true)
  else
    (m, false)

/-- Modelled from the spec: the menu is rendered by an enclosing UI, not
independently. -/
def ModalMenu.disable_standalone_layout (m : ModalMenu) : ModalMenu :=
  { m with standalone_layout := false }

/-- Embeds `manage_overlays`: synchronize the menu label with the external
overlay flag, then consume this frame's toggle. The Rust `&mut` parameters
become state passing: the result is (menu, overlay, returned boolean). The
two `&&` conditions of the source short-circuit on `active_originally`, so at
most one `swap_action` call runs per invocation. -/
def manage_overlays (menu : ModalMenu) (show_label hide_label : String)
    (overlay : Overlays) (active_originally time_changed : Bool) :
    ModalMenu × Overlays × Bool :=
  let m1 :=
    if active_originally then ModalMenu.maybe_change_action menu show_label hide_label
    else ModalMenu.maybe_change_action menu hide_label show_label
  if active_originally = false then
    match ModalMenu.swap_action m1 show_label hide_label with
    | (m2, true) => (m2, overlay, true)
    | (m2, false) => (m2, overlay, active_originally && time_changed)
  else
    match ModalMenu.swap_action m1 hide_label show_label with
    | (m2, true) => (m2, Overlays.Inactive, false)
    | (m2, false) => (m2, overlay, active_originally && time_changed)

/-- Modelled from the spec: the map, reduced to what this core consumes — its
identity (name) and the population size of the unscaled default procedural
scenario, which is map-dependent. -/
structure Map where
  name : String
  default_agents : Nat
deriving DecidableEq, Repr

/-- Modelled from the spec: one demand-generated agent — an identifier and a
departure time in the schedule. -/
structure Agent where
  id : Nat
  departure : ℚ
deriving DecidableEq, Repr

/-- Modelled from the spec: sim's `Scenario`, a named population descriptor —
agent demand plus the bus-seeding flag. -/
structure Scenario where
  scenario_name : String
  demand : List Agent
  seed_buses : Bool
deriving DecidableEq, Repr

/-- Modelled from the spec: `Scenario::empty` — empty demand, bus seeding off. -/
def Scenario.empty (_map : Map) : Scenario := ⟨"", [], false⟩

/-- Modelled from the spec: deterministic procedural demand generation of `n`
agents; agent `i` departs at `i` seconds. -/
def procedural_demand (n : Nat) : List Agent :=
  (List.range n).map fun i => ⟨i, (i : ℚ)⟩

/-- Modelled from the spec: `Scenario::scaled_run` — a procedurally scaled
scenario with exactly `n` demand-generated agents. -/
def Scenario.scaled_run (_map : Map) (n : Nat) : Scenario :=
  ⟨"random agents", procedural_demand n, false⟩

/-- Modelled from the spec: `Scenario::small_run` — the unscaled, default-sized
procedural scenario for the map. -/
def Scenario.small_run (map : Map) : Scenario :=
  ⟨"random agents", procedural_demand map.default_agents, false⟩

/-- Modelled from the spec: the simulation world as this core observes it —
the seeded agent population and the simulated clock. -/
structure Sim where
  agents : List Agent
  time : ℚ
deriving DecidableEq, Repr

/-- Modelled from the spec: `sim.step(map, dt)` advances the simulated clock. -/
def Sim.step (w : Sim) (_map : Map) (dt : ℚ) : Sim := { w with time := w.time + dt }

/-- Modelled from the spec: the configured simulation flags, from which the
random source is derived. -/
structure SimFlags where
  rng_seed : Nat
deriving DecidableEq, Repr

/-- Modelled from the spec: `sim_flags.make_rng()` derives the random source
deterministically from the configured flags. -/
def SimFlags.make_rng (f : SimFlags) : Nat := f.rng_seed

/-- Modelled from the spec: `scenario.instantiate(sim, map, rng, timer)` seeds
the world's population from the scenario's demand; a pure function of the
scenario, the world, the map and the random source, so identical inputs yield
identical populations. -/
def Scenario.instantiate (s : Scenario) (w : Sim) (_map : Map) (_rng : Nat) : Sim :=
  { w with agents := s.demand }

/-- Modelled from the spec: sim's `Analytics`, an opaque precomputed metrics
snapshot. -/
structure Analytics where
  trip_data : List ℚ
deriving DecidableEq, Repr

/-- Modelled from the spec: `Analytics::new`, the empty analytics value. -/
def Analytics.new : Analytics := ⟨[]⟩

/-- Modelled from the spec: sim's `TripMode`, the closed trip-category filter
carried by `FasterTrips`. -/
inductive TripMode where
  | Walk
  | Bike
  | Transit
  | Drive
deriving DecidableEq, Repr

/-- Embeds `GameplayMode`. -/
inductive GameplayMode where
  | Freeform
  | PlayScenario (scenario : String)
  | OptimizeBus (route_name : String)
  | CreateGridlock
  | FasterTrips (trip_mode : TripMode)
deriving DecidableEq, Repr

/-- Embeds `State`, the per-mode controller state; the payloads of the
submodule state types are external to this core. -/
inductive State where
  | Freeform
  | PlayScenario (name : String)
  | OptimizeBus (route_name : String)
  | CreateGridlock
  | FasterTrips (trip_mode : TripMode)
deriving DecidableEq, Repr

/-- Modelled from the spec: each submodule constructor (`freeform::Freeform::new`
and friends) yields the mode's modal menu and state; the menus start with a
mode-specific action, no pending interaction and standalone layout on. -/
def mode_menu_state : GameplayMode → ModalMenu × State
  | .Freeform => (⟨"start a scenario", none, true⟩, .Freeform)
  | .PlayScenario s => (⟨"edit map", none, true⟩, .PlayScenario s)
  | .OptimizeBus r => (⟨"show bus route", none, true⟩, .OptimizeBus r)
  | .CreateGridlock => (⟨"help", none, true⟩, .CreateGridlock)
  | .FasterTrips t => (⟨"help", none, true⟩, .FasterTrips t)

/-- Embeds the second components of the `match` in `GameplayRunner::initialize`:
the scenario name each mode instantiates, if any. -/
def mode_scenario_name : GameplayMode → Option String
  | .Freeform => none
  | .PlayScenario s => some s
  | .OptimizeBus _ => some "weekday_typical_traffic_from_psrc"
  | .CreateGridlock => some "weekday_typical_traffic_from_psrc"
  | .FasterTrips _ => some "weekday_typical_traffic_from_psrc"

/-- Embeds the `builtin` label computation: the synthesized random-scenario
name for the configured agent count. -/
def builtin_label : Option Nat → String
  | some n => "random scenario with " ++ toString n ++ " agents"
  | none => "random scenario with some agents"

/-- Embeds the scenario resolution inside the loading phase of
`GameplayRunner::initialize`: the synthesized label, then the literal
"just buses", then a storage load whose failure (the `unwrap` of a missing or
unparseable file) is embedded as `none`. `storage` stands for
`abstutil::read_binary` keyed by (map name, scenario name). -/
def resolve_scenario (storage : String → String → Option Scenario)
    (map : Map) (num_agents : Option Nat) (scenario_name : String) :
    Option Scenario :=
  if scenario_name = builtin_label num_agents then
    some (match num_agents with
      | some n => Scenario.scaled_run map n
      | none => Scenario.small_run map)
  else if scenario_name = "just buses" then
    some { Scenario.empty map with scenario_name := "just buses", seed_buses := true }
  else
    storage map.name scenario_name

/-- Modelled from the spec: the pieces of the mutable environment
(`ui.primary`) this core consumes — the map, the simulation world, the
configured agent count and the simulation flags. -/
structure UIState where
  map : Map
  sim : Sim
  num_agents : Option Nat
  sim_flags : SimFlags
deriving DecidableEq, Repr

/-- Embeds `GameplayRunner`. -/
structure GameplayRunner where
  mode : GameplayMode
  menu : ModalMenu
  state : State
  prebaked : Analytics
deriving DecidableEq, Repr

/-- The outcome of initialization: the constructed runner, the updated
simulation world, and the warnings printed. -/
structure InitOutcome where
  runner : GameplayRunner
  sim : Sim
  warnings : List String
deriving DecidableEq, Repr

/-- The warning the source prints when the prebaked analytics are missing. -/
def prebakedWarning : String :=
  "WARNING! No prebaked sim analytics. Only freeform mode will work."

/-- Embeds `GameplayRunner::initialize`: load the prebaked analytics (absence
is absorbed with a warning and `Analytics::new`), build the mode's menu and
state, and, when the mode carries a scenario name, resolve and instantiate it
and step the world by 0.1 seconds; the fatal `unwrap` panic of a failed
scenario load is embedded as `none`. `prebaked_store` stands for
`abstutil::read_binary` of the prebaked results keyed by map name. -/
def GameplayRunner.init (prebaked_store : String → Option Analytics)
    (storage : String → String → Option Scenario)
    (ui : UIState) (mode : GameplayMode) : Option InitOutcome :=
  let pre :=
    match prebaked_store ui.map.name with
    | some a => (a, ([] : List String))
    | none => (Analytics.new, [prebakedWarning])
  let ms := mode_menu_state mode
  let runner : GameplayRunner :=
    ⟨mode, ModalMenu.disable_standalone_layout ms.1, ms.2, pre.1⟩
  match mode_scenario_name mode with
  | none => some ⟨runner, ui.sim, pre.2⟩
  | some scenario_name =>
    match resolve_scenario storage ui.map ui.num_agents scenario_name with
    | none => none
    | some scenario =>
      let w := Scenario.instantiate scenario ui.sim ui.map (SimFlags.make_rng ui.sim_flags)
      some ⟨runner, Sim.step w ui.map ((1 : ℚ) / 10), pre.2⟩

/-- A concrete map for evaluating the theorems at concrete inputs. -/
def sampleMap : Map := ⟨"montlake", 5⟩

/-- A concrete environment for evaluating the theorems at concrete inputs. -/
def sampleUI : UIState := ⟨sampleMap, ⟨[], 0⟩, none, ⟨42⟩⟩

/-- A baseline store with no prebaked analytics for any map. -/
def emptyPrebakedStore : String → Option Analytics := fun _ => none

/-- A scenario store with no persisted scenario for any name. -/
def emptyScenarioStore : String → String → Option Scenario := fun _ _ => none

/-- The outcome of initializing `sampleUI` with `PlayScenario "just buses"`
against the empty stores. -/
def sampleJustBusesOutcome : InitOutcome :=
  ⟨⟨GameplayMode.PlayScenario "just buses",
    ModalMenu.disable_standalone_layout
      (mode_menu_state (GameplayMode.PlayScenario "just buses")).1,
    State.PlayScenario "just buses", Analytics.new⟩,
   ⟨[], 0 + 1 / 10⟩, [prebakedWarning]⟩

lemma epsilon_eq_refl (a : Duration) : Duration.epsilon_eq a a = true := by
  simp [Duration.epsilon_eq]

lemma builtin_label_ne_just_buses (num_agents : Option Nat) :
    builtin_label num_agents ≠ "just buses" := by
  cases num_agents with
  | none => decide
  | some n =>
    show ("random scenario with " ++ toString n ++ " agents" : String) ≠ "just buses"
    intro h
    have hl := congrArg String.length h
    rw [String.length_append, String.length_append] at hl
    have h1 : ("random scenario with " : String).length = 21 := rfl
    have h2 : (" agents" : String).length = 7 := rfl
    have h3 : ("just buses" : String).length = 10 := rfl
    omega

lemma resolve_scenario_just_buses (storage : String → String → Option Scenario)
    (map : Map) (num_agents : Option Nat) :
    resolve_scenario storage map num_agents "just buses" =
      some ⟨"just buses", [], true⟩ := by
  unfold resolve_scenario
  rw [if_neg fun h => builtin_label_ne_just_buses num_agents h.symm, if_pos rfl]
  rfl

lemma resolve_scenario_storage_load (storage : String → String → Option Scenario)
    (map : Map) (num_agents : Option Nat) (name : String)
    (h1 : name ≠ builtin_label num_agents) (h2 : name ≠ "just buses") :
    resolve_scenario storage map num_agents name = storage map.name name := by
  unfold resolve_scenario
  rw [if_neg h1, if_neg h2]

lemma init_map_sim (prebaked_store : String → Option Analytics)
    (storage : String → String → Option Scenario) (ui : UIState)
    (mode : GameplayMode) :
    (GameplayRunner.init prebaked_store storage ui mode).map InitOutcome.sim =
      match mode_scenario_name mode with
      | none => some ui.sim
      | some nm =>
        match resolve_scenario storage ui.map ui.num_agents nm with
        | none => none
        | some sc =>
          some (Sim.step
            (Scenario.instantiate sc ui.sim ui.map (SimFlags.make_rng ui.sim_flags))
            ui.map ((1 : ℚ) / 10)) := by
  unfold GameplayRunner.init
  cases hp : prebaked_store ui.map.name <;> cases hm : mode_scenario_name mode
  · rfl
  · rename_i nm
    cases hr : resolve_scenario storage ui.map ui.num_agents nm with
    | none => simp [hr]
    | some sc => simp [hr]
  · rfl
  · rename_i nm
    cases hr : resolve_scenario storage ui.map ui.num_agents nm with
    | none => simp [hr]
    | some sc => simp [hr]

/-- Claim C2: the duration comparator returns the neutral "same as baseline"
fragment whenever `now` is epsilon-equal to `baseline` (in particular whenever
they are equal, since the epsilon check is evaluated before the strict
ordering checks), and otherwise the green "(… faster)" spans when
`now < baseline` and the red "(… slower)" spans when `now > baseline`. -/
theorem cmp_duration_shorter_cases (now baseline : Duration) :
    (Duration.epsilon_eq now baseline = true →
      cmp_duration_shorter now baseline = some [Line " (same as baseline)"]) ∧
    (now = baseline →
      cmp_duration_shorter now baseline = some [Line " (same as baseline)"]) ∧
    (Duration.epsilon_eq now baseline = false → now < baseline →
      cmp_duration_shorter now baseline =
        some [Line " (",
              TextSpan.fg (Line (Duration.minimal_tostring (baseline - now))) Color.GREEN,
              Line " faster)"]) ∧
    (Duration.epsilon_eq now baseline = false → baseline < now →
      cmp_duration_shorter now baseline =
        some [Line " (",
              TextSpan.fg (Line (Duration.minimal_tostring (now - baseline))) Color.RED,
              Line " slower)"]) := by
  refine ⟨?_, ?_, ?_, ?_⟩
  · intro h
    simp [cmp_duration_shorter, h]
  · intro h
    subst h
    simp [cmp_duration_shorter, epsilon_eq_refl]
  · intro h hlt
    simp [cmp_duration_shorter, h, hlt]
  · intro h hgt
    simp [cmp_duration_shorter, h, hgt, not_lt_of_gt hgt]

/-- Claim C3: `cmp_count_fewer` formats "… fewer" in green when
`now < baseline`, "… more" in red when `now > baseline` and the neutral
fragment on equality; `cmp_count_more` produces the identical text with the
color polarity inverted and the identical neutral fragment; neither produces
the "0 fewer" or "0 more" phrasing when `now = baseline`. -/
theorem cmp_count_cases (now baseline : Nat) :
    (now < baseline → cmp_count_fewer now baseline =
        TextSpan.fg (Line (prettyprint_usize (baseline - now) ++ " fewer")) Color.GREEN) ∧
    (baseline < now → cmp_count_fewer now baseline =
        TextSpan.fg (Line (prettyprint_usize (now - baseline) ++ " more")) Color.RED) ∧
    (now = baseline → cmp_count_fewer now baseline = Line "same as baseline") ∧
    (now < baseline → cmp_count_more now baseline =
        TextSpan.fg (Line (prettyprint_usize (baseline - now) ++ " fewer")) Color.RED) ∧
    (baseline < now → cmp_count_more now baseline =
        TextSpan.fg (Line (prettyprint_usize (now - baseline) ++ " more")) Color.GREEN) ∧
    (now = baseline → cmp_count_more now baseline = Line "same as baseline") ∧
    (now = baseline → (cmp_count_fewer now baseline).text ≠ "0 fewer" ∧
        (cmp_count_more now baseline).text ≠ "0 more") := by
  refine ⟨?_, ?_, ?_, ?_, ?_, ?_, ?_⟩
  · intro h
    simp [cmp_count_fewer, h]
  · intro h
    simp [cmp_count_fewer, h, Nat.not_lt.mpr (Nat.le_of_lt h)]
  · intro h
    subst h
    simp [cmp_count_fewer]
  · intro h
    simp [cmp_count_more, h]
  · intro h
    simp [cmp_count_more, h, Nat.not_lt.mpr (Nat.le_of_lt h)]
  · intro h
    subst h
    simp [cmp_count_more]
  · intro h
    subst h
    refine ⟨?_, ?_⟩ <;> simp [cmp_count_fewer, cmp_count_more, Line]

/-- Claim C4: every comparator handles equality as an explicit, reachable
case: both count comparators return the neutral fragment on equal inputs, and
the duration comparator's final fallback (the source's `unreachable!()`,
embedded as `none`) is never executed for any pair of inputs, because the
epsilon-equality case is checked before the strict ordering cases. -/
theorem comparators_equality_reachable :
    (∀ now baseline : Duration, (cmp_duration_shorter now baseline).isSome = true) ∧
    (∀ n : Nat, cmp_count_fewer n n = Line "same as baseline") ∧
    (∀ n : Nat, cmp_count_more n n = Line "same as baseline") ∧
    (∀ a : Duration, cmp_duration_shorter a a = some [Line " (same as baseline)"]) := by
  refine ⟨?_, ?_, ?_, ?_⟩
  · intro now baseline
    by_cases h : Duration.epsilon_eq now baseline = true
    · simp [cmp_duration_shorter, h]
    · have hne : now ≠ baseline := by
        intro he
        subst he
        exact h (epsilon_eq_refl now)
      rcases lt_trichotomy now baseline with hlt | heq | hgt
      · simp [cmp_duration_shorter, h, hlt]
      · exact absurd heq hne
      · simp [cmp_duration_shorter, h, hgt, not_lt_of_gt hgt]
  · intro n
    simp [cmp_count_fewer]
  · intro n
    simp [cmp_count_more]
  · intro a
    simp [cmp_duration_shorter, epsilon_eq_refl]

/-- Claim C1: after the menu's own per-frame input has run, `manage_overlays`
(a) reports activation (returns true) without mutating the overlay when the
flag was inactive and the user triggered the show-to-hide swap this frame,
(b) resets the overlay to the explicit `Inactive` sentinel and returns false
when the flag was active and the user triggered the hide-to-show swap,
(c) otherwise leaves the overlay unchanged and returns
`active_originally && time_changed`; the activate and deactivate triggering
conditions never both hold in one call. -/
theorem manage_overlays_toggle_sync (menu : ModalMenu) (show_label hide_label : String)
    (overlay : Overlays) (active_originally time_changed : Bool) :
    (active_originally = false →
      (ModalMenu.swap_action (ModalMenu.maybe_change_action menu hide_label show_label)
          show_label hide_label).2 = true →
      (manage_overlays menu show_label hide_label overlay active_originally
          time_changed).2.1 = overlay ∧
      (manage_overlays menu show_label hide_label overlay active_originally
          time_changed).2.2 = true) ∧
    (active_originally = true →
      (ModalMenu.swap_action (ModalMenu.maybe_change_action menu show_label hide_label)
          hide_label show_label).2 = true →
      (manage_overlays menu show_label hide_label overlay active_originally
          time_changed).2.1 = Overlays.Inactive ∧
      (manage_overlays menu show_label hide_label overlay active_originally
          time_changed).2.2 = false) ∧
    (active_originally = false →
      (ModalMenu.swap_action (ModalMenu.maybe_change_action menu hide_label show_label)
          show_label hide_label).2 = false →
      (manage_overlays menu show_label hide_label overlay active_originally
          time_changed).2.1 = overlay ∧
      (manage_overlays menu show_label hide_label overlay active_originally
          time_changed).2.2 = (active_originally && time_changed)) ∧
    (active_originally = true →
      (ModalMenu.swap_action (ModalMenu.maybe_change_action menu show_label hide_label)
          hide_label show_label).2 = false →
      (manage_overlays menu show_label hide_label overlay active_originally
          time_changed).2.1 = overlay ∧
      (manage_overlays menu show_label hide_label overlay active_originally
          time_changed).2.2 = (active_originally && time_changed)) ∧
    ¬(active_originally = false ∧
      (ModalMenu.swap_action (ModalMenu.maybe_change_action menu hide_label show_label)
          show_label hide_label).2 = true ∧
      active_originally = true ∧
      (ModalMenu.swap_action (ModalMenu.maybe_change_action menu show_label hide_label)
          hide_label show_label).2 = true) := by
  cases active_originally with
  | false =>
    rcases hsw : ModalMenu.swap_action
        (ModalMenu.maybe_change_action menu hide_label show_label)
        show_label hide_label with ⟨m2, b⟩
    cases b <;> refine ⟨?_, ?_, ?_, ?_, ?_⟩ <;> simp [manage_overlays, hsw]
  | true =>
    rcases hsw : ModalMenu.swap_action
        (ModalMenu.maybe_change_action menu show_label hide_label)
        hide_label show_label with ⟨m2, b⟩
    cases b <;> refine ⟨?_, ?_, ?_, ?_, ?_⟩ <;> simp [manage_overlays, hsw]

/-- Claim C5: the scenario loader's ordered resolution policy — the
synthesized label with a configured count `n` yields the scaled procedural
scenario with exactly `n` demand-generated agents; the synthesized label with
no configured count yields the unscaled default-sized scenario; the literal
"just buses" yields an empty-demand scenario with the bus-seeding flag set,
regardless of the configured agent count; any other name is loaded from
persistent storage. -/
theorem resolve_scenario_policy (storage : String → String → Option Scenario)
    (map : Map) :
    (∀ n : Nat,
      resolve_scenario storage map (some n)
          ("random scenario with " ++ toString n ++ " agents")
        = some (Scenario.scaled_run map n) ∧
      (Scenario.scaled_run map n).demand.length = n) ∧
    (resolve_scenario storage map none "random scenario with some agents"
        = some (Scenario.small_run map)) ∧
    (∀ num_agents : Option Nat,
      resolve_scenario storage map num_agents "just buses" =
        some ⟨"just buses", [], true⟩) ∧
    (∀ (num_agents : Option Nat) (name : String),
      name ≠ builtin_label num_agents → name ≠ "just buses" →
      resolve_scenario storage map num_agents name = storage map.name name) := by
  refine ⟨?_, ?_, ?_, ?_⟩
  · intro n
    refine ⟨?_, ?_⟩
    · show resolve_scenario storage map (some n) (builtin_label (some n)) = _
      unfold resolve_scenario
      rw [if_pos rfl]
    · simp [Scenario.scaled_run, procedural_demand]
  · show resolve_scenario storage map none (builtin_label none) = _
    unfold resolve_scenario
    rw [if_pos rfl]
  · exact resolve_scenario_just_buses storage map
  · exact fun na nm h1 h2 => resolve_scenario_storage_load storage map na nm h1 h2

/-- Claim C6: when the scenario name is neither of the two synthesized labels
nor "just buses" and the storage load fails, controller initialization aborts
entirely (the failed `unwrap`, embedded as `none`): no substitution, no retry,
no half-initialized controller. -/
theorem missing_scenario_fatal (prebaked_store : String → Option Analytics)
    (storage : String → String → Option Scenario) (ui : UIState) (name : String)
    (h1 : name ≠ builtin_label ui.num_agents) (h2 : name ≠ "just buses")
    (h3 : storage ui.map.name name = none) :
    GameplayRunner.init prebaked_store storage ui (GameplayMode.PlayScenario name)
      = none := by
  unfold GameplayRunner.init
  cases hp : prebaked_store ui.map.name <;>
    simp [mode_scenario_name, resolve_scenario_storage_load storage ui.map ui.num_agents
      name h1 h2, h3]

/-- Witness for C6 at a concrete input: a name unknown to the store is fatal. -/
theorem missing_scenario_fatal_witness :
    GameplayRunner.init emptyPrebakedStore emptyScenarioStore sampleUI
      (GameplayMode.PlayScenario "weekday_typical_traffic_from_psrc") = none :=
  missing_scenario_fatal emptyPrebakedStore emptyScenarioStore sampleUI
    "weekday_typical_traffic_from_psrc" (by decide) (by decide) rfl

/-- Claim C7: for every mode, a failed baseline-analytics load does not
propagate — initialization behaves exactly as with a store holding the empty
`Analytics::new` value, except that the warning is printed; in particular any
constructed controller carries the empty analytics value. -/
theorem missing_baseline_nonfatal (prebaked_store : String → Option Analytics)
    (storage : String → String → Option Scenario) (ui : UIState)
    (mode : GameplayMode) (h : prebaked_store ui.map.name = none) :
    (GameplayRunner.init prebaked_store storage ui mode =
      (GameplayRunner.init (fun _ => some Analytics.new) storage ui mode).map
        (fun out => ⟨out.runner, out.sim, [prebakedWarning]⟩)) ∧
    (∀ out, GameplayRunner.init prebaked_store storage ui mode = some out →
      out.runner.prebaked = Analytics.new ∧ out.warnings = [prebakedWarning]) := by
  refine ⟨?_, ?_⟩
  · unfold GameplayRunner.init
    rw [h]
    cases hm : mode_scenario_name mode with
    | none => rfl
    | some nm =>
      cases hr : resolve_scenario storage ui.map ui.num_agents nm with
      | none => simp [hr]
      | some sc => simp [hr]
  · intro out hout
    unfold GameplayRunner.init at hout
    rw [h] at hout
    cases hm : mode_scenario_name mode with
    | none =>
      rw [hm] at hout
      obtain rfl := Option.some.inj hout
      exact ⟨rfl, rfl⟩
    | some nm =>
      rw [hm] at hout
      cases hr : resolve_scenario storage ui.map ui.num_agents nm with
      | none => simp [hr] at hout
      | some sc =>
        simp only [hr] at hout
        obtain rfl := Option.some.inj hout
        exact ⟨rfl, rfl⟩

/-- Witness for C7 at a concrete input: Freeform initialization with no
baseline file substitutes the empty analytics and warns. -/
theorem missing_baseline_nonfatal_witness :
    (GameplayRunner.init emptyPrebakedStore emptyScenarioStore sampleUI
        GameplayMode.Freeform =
      (GameplayRunner.init (fun _ => some Analytics.new) emptyScenarioStore sampleUI
          GameplayMode.Freeform).map
        (fun out => ⟨out.runner, out.sim, [prebakedWarning]⟩)) ∧
    (∀ out, GameplayRunner.init emptyPrebakedStore emptyScenarioStore sampleUI
        GameplayMode.Freeform = some out →
      out.runner.prebaked = Analytics.new ∧ out.warnings = [prebakedWarning]) :=
  missing_baseline_nonfatal emptyPrebakedStore emptyScenarioStore sampleUI
    GameplayMode.Freeform rfl

/-- Claim C8: Freeform initialization produces no scenario name, never enters
the scenario-resolution path (its outcome is the same for any two scenario
stores and the world is not advanced), and succeeds even when no baseline
analytics exist for the map. -/
theorem freeform_no_scenario (storage storage' : String → String → Option Scenario)
    (ui : UIState) :
    mode_scenario_name GameplayMode.Freeform = none ∧
    GameplayRunner.init (fun _ => none) storage ui GameplayMode.Freeform =
      some ⟨⟨GameplayMode.Freeform,
             ModalMenu.disable_standalone_layout
               (mode_menu_state GameplayMode.Freeform).1,
             State.Freeform, Analytics.new⟩, ui.sim, [prebakedWarning]⟩ ∧
    GameplayRunner.init (fun _ => none) storage ui GameplayMode.Freeform =
      GameplayRunner.init (fun _ => none) storage' ui GameplayMode.Freeform :=
  ⟨rfl, rfl, rfl⟩

/-- Claim C9: two-run determinism — two initializations from identical stores,
environment (hence an identically derived random source) and mode produce
identical agent populations: the same count and the same per-agent departure
schedule. -/
theorem instantiation_deterministic (prebaked_store : String → Option Analytics)
    (storage : String → String → Option Scenario) (ui : UIState)
    (mode : GameplayMode) (out1 out2 : InitOutcome)
    (h1 : GameplayRunner.init prebaked_store storage ui mode = some out1)
    (h2 : GameplayRunner.init prebaked_store storage ui mode = some out2) :
    out1.sim.agents.length = out2.sim.agents.length ∧
    out1.sim.agents.map Agent.departure = out2.sim.agents.map Agent.departure := by
  rw [h1] at h2
  obtain rfl := Option.some.inj h2
  exact ⟨rfl, rfl⟩

/-- Witness for C9 at a concrete input: two runs of "just buses" on the
sample environment agree. -/
theorem instantiation_deterministic_witness :
    sampleJustBusesOutcome.sim.agents.length =
      sampleJustBusesOutcome.sim.agents.length ∧
    sampleJustBusesOutcome.sim.agents.map Agent.departure =
      sampleJustBusesOutcome.sim.agents.map Agent.departure :=
  instantiation_deterministic emptyPrebakedStore emptyScenarioStore sampleUI
    (GameplayMode.PlayScenario "just buses") sampleJustBusesOutcome
    sampleJustBusesOutcome rfl rfl

/-- Claim C10: the OptimizeBus, CreateGridlock and FasterTrips variants all
resolve and instantiate the one fixed persisted scenario
"weekday_typical_traffic_from_psrc" regardless of the carried route name or
trip-category parameter (the resulting simulation world is identical across
those variants and across their parameters), and only PlayScenario's carried
string determines the scenario name; Freeform has none. -/
theorem challenge_modes_fixed_scenario (route route' : String) (t t' : TripMode) :
    mode_scenario_name (GameplayMode.OptimizeBus route) =
      some "weekday_typical_traffic_from_psrc" ∧
    mode_scenario_name GameplayMode.CreateGridlock =
      some "weekday_typical_traffic_from_psrc" ∧
    mode_scenario_name (GameplayMode.FasterTrips t) =
      some "weekday_typical_traffic_from_psrc" ∧
    (∀ s : String, mode_scenario_name (GameplayMode.PlayScenario s) = some s) ∧
    mode_scenario_name GameplayMode.Freeform = none ∧
    (∀ (prebaked_store : String → Option Analytics)
       (storage : String → String → Option Scenario) (ui : UIState),
      ((GameplayRunner.init prebaked_store storage ui
            (GameplayMode.OptimizeBus route)).map InitOutcome.sim =
        (GameplayRunner.init prebaked_store storage ui
            (GameplayMode.OptimizeBus route')).map InitOutcome.sim) ∧
      ((GameplayRunner.init prebaked_store storage ui
            (GameplayMode.FasterTrips t)).map InitOutcome.sim =
        (GameplayRunner.init prebaked_store storage ui
            (GameplayMode.FasterTrips t')).map InitOutcome.sim) ∧
      ((GameplayRunner.init prebaked_store storage ui
            (GameplayMode.OptimizeBus route)).map InitOutcome.sim =
        (GameplayRunner.init prebaked_store storage ui
            GameplayMode.CreateGridlock).map InitOutcome.sim) ∧
      ((GameplayRunner.init prebaked_store storage ui
            (GameplayMode.FasterTrips t)).map InitOutcome.sim =
        (GameplayRunner.init prebaked_store storage ui
            GameplayMode.CreateGridlock).map InitOutcome.sim)) := by
  refine ⟨rfl, rfl, rfl, fun s => rfl, rfl, ?_⟩
  intro prebaked_store storage ui
  refine ⟨?_, ?_, ?_, ?_⟩ <;> rw [init_map_sim, init_map_sim] <;> rfl

end Gameplay
